/-
Verification of the adaptive-hp-quiz session core: a shallow embedding of
`src/app/state.py`, `src/app/services/adaptive_engine.py`,
`src/app/services/gemini_client.py` and the orchestration in `src/app/main.py`,
together with theorems settling the specification claims.

Modelling conventions:
- Python `deque` is a `List` (append at the tail, pop from the head);
  `deque(maxlen=N)` eviction is `dequeAppend`.
- Python `set` is a `List` with membership-guarded insertion (`setInsert`);
  only membership is ever observed, so ordering is irrelevant.
- Python `dict` is an association `List` with overwrite insertion
  (`dictInsert`), first-match lookup (`dictLookup`) and key removal
  (`dictRemove`); Python dicts have unique keys, which these operations
  preserve.
- `uuid.uuid4()` is a supply `u : Nat → String` threaded by an index: the
  n-th fresh id drawn is `u n`.
- `random.shuffle` is a parameter `shuf : List QOption → List QOption`,
  constrained in theorems to produce a permutation of its input.
- `SessionStore` methods act on `self.sessions[session_id]`; the store's
  id-indexed map is elided and every operation acts on one `SessionData`.
-/
import Mathlib

/-- Python `deque(maxlen=maxlen)` append: when the deque is full the oldest
(leftmost) entry is evicted. -/
def dequeAppend {α : Type} (maxlen : Nat) (l : List α) (x : α) : List α :=
  if maxlen ≤ l.length then l.drop (l.length + 1 - maxlen) ++ [x] else l ++ [x]

/-- Python `set.add`: insert unless already present. -/
def setInsert (l : List String) (x : String) : List String :=
  if x ∈ l then l else l ++ [x]

/-- Python `dict.get(k)`: first (unique) binding of `k`, if any. -/
def dictLookup {α : Type} : List (String × α) → String → Option α
  | [], _ => none
  | p :: rest, k => if p.1 = k then some p.2 else dictLookup rest k

/-- Python `d[k] = v`: overwrite the binding in place when the key exists,
else append a new binding. -/
def dictInsert {α : Type} (l : List (String × α)) (k : String) (v : α) :
    List (String × α) :=
  if l.any (fun p => p.1 == k) then
    l.map (fun p => if p.1 = k then (k, v) else p)
  else l ++ [(k, v)]

/-- Python `d.pop(k, None)`: drop the binding of `k`, if any. -/
def dictRemove {α : Type} (l : List (String × α)) (k : String) :
    List (String × α) :=
  l.filter (fun p => !(p.1 == k))

/-- Configuration (`src/app/config.py`), at the defaults hard-coded there:
`QUESTION_BATCH_SIZE` 10, `ANSWER_WINDOW` 5. -/
structure Settings where
  question_batch_size : Nat
  answer_window : Nat
deriving DecidableEq

def settings : Settings := { question_batch_size := 10, answer_window := 5 }

/-- `src/app/models.py` class `Option` (renamed: `Option` is Lean's built-in
type). -/
structure QOption where
  id : String
  text : String
deriving DecidableEq

/-- `src/app/models.py` class `Question`. -/
structure Question where
  id : String
  text : String
  options : List QOption
  correct_option_id : String
  difficulty : String
deriving DecidableEq

/-- `src/app/models.py` class `RecentWindowInfo`. -/
structure RecentWindowInfo where
  window_complete : Bool
  recent_results : List Bool
  recent_correct_count : Nat
  window_size : Nat
deriving DecidableEq

/-- `src/app/state.py` `_norm`: trim surrounding whitespace and case-fold
(`text.strip().lower()`; the Python `text or ''` None-guard is vacuous for
total strings). Written over the character list so that it evaluates by
kernel reduction. -/
def _norm (text : String) : String :=
  ⟨(((text.data.dropWhile Char.isWhitespace).reverse.dropWhile
      Char.isWhitespace).reverse).map Char.toLower⟩

/-- `src/app/state.py` class `SessionData`. The field
`generation_in_progress` is not declared in `state.py`; it is modelled from
the spec (§3: "`generation_in_progress`: boolean guard preventing two
concurrent asynchronous refills for the same session"), since `main.py`
reads and writes it through store methods missing from `state.py`. -/
structure SessionData where
  difficulty : String
  questions : List Question
  answered : List (String × Bool)
  recent_results : List Bool
  pending_popup : Option String
  served_unanswered : List (String × Question)
  asked_question_ids : List String
  asked_question_texts : List String
  generated_question_texts : List String
  correct_texts : List String
  wrong_texts : List String
  generation_in_progress : Bool
deriving DecidableEq

/-- `SessionData.__init__` (the state installed by
`SessionStore.create_session`); the modelled guard starts clear. -/
def init_session : SessionData :=
  { difficulty := "medium"
    questions := []
    answered := []
    recent_results := []
    pending_popup := none
    served_unanswered := []
    asked_question_ids := []
    asked_question_texts := []
    generated_question_texts := []
    correct_texts := []
    wrong_texts := []
    generation_in_progress := false }

/-- `src/app/state.py` `SessionStore._filter_new`: drop candidates whose id
was already asked or whose normalized text was already asked. The Python
loop copies the two seen-sets once and never updates them while iterating,
so it is exactly this filter. -/
def _filter_new (s : SessionData) (candidates : List Question) :
    List Question :=
  candidates.filter (fun q =>
    decide (q.id ∉ s.asked_question_ids ∧
      _norm q.text ∉ s.asked_question_texts))

/-- `src/app/state.py` `SessionStore._remember_generated`: append each
candidate's normalized text to the bounded (maxlen 200) recent-generated
ring. -/
def _remember_generated (s : SessionData) (questions : List Question) :
    SessionData :=
  { s with generated_question_texts :=
      (questions.foldl (fun acc q => dequeAppend 200 acc (_norm q.text))
        s.generated_question_texts) }

/-- `src/app/state.py` `SessionStore.set_question_buffer`: filter, remember,
replace the buffer. -/
def set_question_buffer (s : SessionData) (questions : List Question) :
    SessionData :=
  let filtered := _filter_new s questions
  let s1 := _remember_generated s filtered
  { s1 with questions := filtered }

/-- `src/app/state.py` `SessionStore.extend_question_buffer`: filter,
remember, append to the buffer. -/
def extend_question_buffer (s : SessionData) (questions : List Question) :
    SessionData :=
  let filtered := _filter_new s questions
  let s1 := _remember_generated s filtered
  { s1 with questions := s1.questions ++ filtered }

/-- `src/app/state.py` `SessionStore.pop_next_question`: pop the buffer head
(if any), record it as served-unanswered and mark its id and normalized text
as asked. -/
def pop_next_question (s : SessionData) : Option Question × SessionData :=
  match s.questions with
  | [] => (none, s)
  | q :: rest =>
    (some q,
      { s with questions := rest
               served_unanswered := dictInsert s.served_unanswered q.id q
               asked_question_ids := setInsert s.asked_question_ids q.id
               asked_question_texts :=
                 setInsert s.asked_question_texts (_norm q.text) })

/-- `src/app/state.py` `SessionStore.get_served_question`. -/
def get_served_question (s : SessionData) (question_id : String) :
    Option Question :=
  dictLookup s.served_unanswered question_id

/-- `src/app/state.py` `SessionStore.evaluate_answer`: unknown question ids
evaluate to `False`; otherwise compare the selected option id with the
correct one. -/
def evaluate_answer (s : SessionData) (question_id selected_option_id : String) :
    Bool :=
  match dictLookup s.served_unanswered question_id with
  | none => false
  | some q => selected_option_id == q.correct_option_id

/-- `src/app/state.py` `SessionStore.record_answer`: record the outcome in
`answered`, move a served question's text to the correct/wrong history and
drop it from `served_unanswered`, push the outcome into the rolling window,
and report whether the window is now exactly full. -/
def record_answer (s : SessionData) (question_id : String) (is_correct : Bool) :
    SessionData × RecentWindowInfo :=
  let s1 := { s with answered := dictInsert s.answered question_id is_correct }
  let s2 :=
    match dictLookup s1.served_unanswered question_id with
    | some q =>
      let s' :=
        if is_correct then
          { s1 with correct_texts := s1.correct_texts ++ [q.text] }
        else
          { s1 with wrong_texts := s1.wrong_texts ++ [q.text] }
      { s' with served_unanswered := dictRemove s'.served_unanswered question_id }
    | none => s1
  let s3 := { s2 with recent_results :=
                dequeAppend settings.answer_window s2.recent_results is_correct }
  (s3,
    { window_complete := s3.recent_results.length == settings.answer_window
      recent_results := s3.recent_results
      recent_correct_count := s3.recent_results.count true
      window_size := settings.answer_window })

/-- `src/app/state.py` `SessionStore.should_increase`. -/
def should_increase (s : SessionData) : Bool :=
  s.recent_results.length == settings.answer_window &&
    decide (settings.answer_window - 1 ≤ s.recent_results.count true)

/-- `src/app/state.py` `SessionStore.should_decrease`. -/
def should_decrease (s : SessionData) : Bool :=
  s.recent_results.length == settings.answer_window &&
    decide (s.recent_results.count true ≤ 1)

/-- Python `list.index` on the difficulty scale. `list.index` raises for a
value not in the list; that call site is guarded in the theorems by the
invariant that `difficulty` is always one of the three rungs, under which
this total version agrees with Python. -/
def listIndex : List String → String → Nat
  | [], _ => 0
  | a :: rest, x => if a = x then 0 else listIndex rest x + 1

/-- The difficulty-update computation of
`src/app/state.py` `SessionStore.adjust_difficulty` (the new value of
`self.sessions[session_id].difficulty`). -/
def next_difficulty (current direction : String) : String :=
  let order := ["easy", "medium", "hard"]
  let idx := listIndex order current
  if direction = "increase" ∧ idx < order.length - 1 then
    order.getD (idx + 1) ""
  else if direction = "decrease" ∧ 0 < idx then
    order.getD (idx - 1) ""
  else current

/-- `src/app/state.py` `SessionStore.adjust_difficulty`: move one rung in the
given direction, clamped at the ends, then unconditionally clear the rolling
window. -/
def adjust_difficulty (s : SessionData) (direction : String) : SessionData :=
  { s with difficulty := next_difficulty s.difficulty direction
           recent_results := [] }

/-- `src/app/state.py` `SessionStore.set_pending_popup`. -/
def set_pending_popup (s : SessionData) (direction : String) : SessionData :=
  if direction = "increase" then
    { s with pending_popup := some "too_easy_increasing_difficulty" }
  else if direction = "decrease" then
    { s with pending_popup := some "too_hard_decreasing_difficulty" }
  else
    { s with pending_popup := none }

/-- `src/app/state.py` `SessionStore.consume_pending_popup`: read and reset. -/
def consume_pending_popup (s : SessionData) : Option String × SessionData :=
  (s.pending_popup, { s with pending_popup := none })

/-- `src/app/state.py` `SessionStore.buffer_len`. -/
def buffer_len (s : SessionData) : Nat :=
  s.questions.length

/-- `src/app/services/adaptive_engine.py` `determine_next_difficulty`:
thresholds are relative to the window's own length (`total`), not to the
configured window size. -/
def determine_next_difficulty (recent_results : List Bool) : String :=
  let correct := recent_results.count true
  let total := recent_results.length
  if total = 0 then "none"
  else if total - 1 ≤ correct then "increase"
  else if correct ≤ 1 then "decrease"
  else "none"

/-- The decision rule exactly as the claim words it (for comparison with
`determine_next_difficulty`): `none` on the empty window, else `increase`
when the correct-count is at least `W - 1` for the configured window size
`W`, else `decrease` when the correct-count is at most 1, else `none`. -/
def claim_difficulty_rule (W : Nat) (w : List Bool) : String :=
  if w.length = 0 then "none"
  else if W - 1 ≤ w.count true then "increase"
  else if w.count true ≤ 1 then "decrease"
  else "none"

/-- `src/app/services/gemini_client.py` `GeminiQuestionGenerator._norm_text`
(identical to `state.py` `_norm`). -/
def _norm_text (text : String) : String :=
  _norm text

/-- `src/app/services/gemini_client.py`
`GeminiQuestionGenerator._shuffle_options`: `random.shuffle` is abstracted by
the caller passing the shuffled list (theorems constrain it to a permutation
of `options`). The new correct id is the id of the first shuffled option
whose text matches the correct option's text, defaulting to the incoming
`correct_option_id` when the incoming id matches no option or its text
reappears nowhere. -/
def _shuffle_options (options : List QOption) (correct_option_id : String)
    (shuffled : List QOption) : List QOption × String :=
  match options.find? (fun o => o.id == correct_option_id) with
  | some correct_option =>
    match shuffled.find? (fun o => o.text == correct_option.text) with
    | some o => (shuffled, o.id)
    | none => (shuffled, correct_option_id)
  | none => (shuffled, correct_option_id)

/-- The raw `options` field of a payload item, as discriminated by
`_parse_options`: a list of dicts (with the `id` and `text` values of each,
absent keys as `none`), a list of strings, or anything else (yielding no
options). A present-but-empty-string id is falsy in Python and is replaced
by a fresh uuid, like an absent one. -/
inductive OptsRaw where
  | dicts (l : List (Option String × Option String))
  | strs (l : List String)
  | mixed
deriving DecidableEq

/-- The dict branch of `GeminiQuestionGenerator._parse_options`:
`Option(id=o.get("id") or str(uuid.uuid4()), text=o.get("text", ""))` for
each entry, threading the uuid-supply index (a uuid is drawn only when the
id is absent or falsy). -/
def _parse_option_dicts (u : Nat → String) :
    List (Option String × Option String) → Nat → List QOption × Nat
  | [], k => ([], k)
  | (oid, otext) :: rest, k =>
    let idk : String × Nat :=
      match oid with
      | some s => if s = "" then (u k, k + 1) else (s, k)
      | none => (u k, k + 1)
    let tailk := _parse_option_dicts u rest idk.2
    (⟨idk.1, otext.getD ""⟩ :: tailk.1, tailk.2)

/-- The string branch of `GeminiQuestionGenerator._parse_options`: a fresh
uuid id for every option text. -/
def _parse_option_strs (u : Nat → String) :
    List String → Nat → List QOption × Nat
  | [], k => ([], k)
  | t :: rest, k =>
    let tailk := _parse_option_strs u rest (k + 1)
    (⟨u k, t⟩ :: tailk.1, tailk.2)

/-- `src/app/services/gemini_client.py`
`GeminiQuestionGenerator._parse_options`. -/
def _parse_options (u : Nat → String) : OptsRaw → Nat → List QOption × Nat
  | .dicts l, k => _parse_option_dicts u l k
  | .strs l, k => _parse_option_strs u l k
  | .mixed, k => ([], k)

/-- One payload dict from the model response, restricted to the keys
`generate_questions` reads. `none` models an absent key; for
`correct_option_id`, `some ""` is present-but-falsy and is treated like an
absent key, as in the Python truthiness test. -/
structure Item where
  id : Option String
  options : OptsRaw
  correct_option_id : Option String
  correct_index : Option Int
  text : String
  difficulty : Option String
deriving DecidableEq

/-- A payload entry: a dict, or anything else (skipped by the loop's
`isinstance(item, dict)` test). -/
inductive PayloadItem where
  | dict (item : Item)
  | nondict
deriving DecidableEq

/-- The correct-id selection of the parsing loop in
`GeminiQuestionGenerator.generate_questions`: a present, truthy
`correct_option_id` is taken verbatim (unvalidated); else a present
`correct_index` in range selects that option's id; else the first option's
id. Callers guarantee `opts` is non-empty. -/
def _choose_correct_id (item : Item) (opts : List QOption) : String :=
  let byIndex : String :=
    match item.correct_index with
    | some i =>
      if 0 ≤ i ∧ i < (opts.length : Int) then (opts.getD i.toNat ⟨"", ""⟩).id
      else (opts.headD ⟨"", ""⟩).id
    | none => (opts.headD ⟨"", ""⟩).id
  match item.correct_option_id with
  | some s => if s = "" then byIndex else s
  | none => byIndex

/-- The `for item in payload[:count]` loop of
`GeminiQuestionGenerator.generate_questions`: skip non-dicts, draw the
question id (fresh uuid only when absent/falsy), parse options (skip when
empty), choose the correct id, skip texts normalizing into the asked set or
already produced in this batch, shuffle, and emit the `Question`. -/
def _parse_payload (difficulty : String) (u : Nat → String)
    (shuf : List QOption → List QOption) :
    List PayloadItem → Nat → List String → List String → List Question
  | [], _, _, _ => []
  | .nondict :: rest, k, askedN, seen => _parse_payload difficulty u shuf rest k askedN seen
  | .dict item :: rest, k, askedN, seen =>
    let qidk : String × Nat :=
      match item.id with
      | some s => if s = "" then (u k, k + 1) else (s, k)
      | none => (u k, k + 1)
    let optsk := _parse_options u item.options qidk.2
    match optsk.1 with
    | [] => _parse_payload difficulty u shuf rest optsk.2 askedN seen
    | o :: os =>
      let opts := o :: os
      let correct_id := _choose_correct_id item opts
      let norm_text := _norm_text item.text
      if norm_text ∈ askedN then
        _parse_payload difficulty u shuf rest optsk.2 askedN seen
      else if norm_text ∈ seen then
        _parse_payload difficulty u shuf rest optsk.2 askedN seen
      else
        let sh := _shuffle_options opts correct_id (shuf opts)
        { id := qidk.1
          text := item.text
          options := sh.1
          correct_option_id := sh.2
          difficulty := item.difficulty.getD difficulty } ::
          _parse_payload difficulty u shuf rest optsk.2 askedN (norm_text :: seen)

/-- `src/app/services/gemini_client.py`
`GeminiQuestionGenerator._fallback_questions`, recursing over `count` and
threading the uuid index: each canned question draws five uuids (question id,
then four option ids), has the fixed text, and takes its correct id from
shuffling with the first option ("Harry") correct. -/
def _fallback_questions_aux (difficulty : String) (u : Nat → String)
    (shuf : List QOption → List QOption) : Nat → Nat → List Question
  | 0, _ => []
  | n + 1, k =>
    let o1 : QOption := ⟨u (k + 1), "Harry"⟩
    let o2 : QOption := ⟨u (k + 2), "Ron"⟩
    let o3 : QOption := ⟨u (k + 3), "Hermione"⟩
    let o4 : QOption := ⟨u (k + 4), "Draco"⟩
    let opts := [o1, o2, o3, o4]
    let sh := _shuffle_options opts o1.id (shuf opts)
    { id := u k
      text := "Who is the boy who lived?"
      options := sh.1
      correct_option_id := sh.2
      difficulty := difficulty } ::
      _fallback_questions_aux difficulty u shuf n (k + 5)

/-- `src/app/services/gemini_client.py`
`GeminiQuestionGenerator._fallback_questions`. -/
def _fallback_questions (difficulty : String) (count : Nat) (u : Nat → String)
    (shuf : List QOption → List QOption) : List Question :=
  _fallback_questions_aux difficulty u shuf count 0

/-- The outcome of the external model call in
`GeminiQuestionGenerator.generate_questions`, abstracting the network/JSON
layers: no API key configured; the call or the JSON parse raised; or a
successfully coerced payload list. -/
inductive GenOutcome where
  | noApiKey
  | callFailed
  | payload (items : List PayloadItem)
deriving DecidableEq

/-- `src/app/services/gemini_client.py`
`GeminiQuestionGenerator.generate_questions`: with no API key, on any
call/parse failure, on an empty coerced payload, or when the parsing loop
produces no questions, the *fallback batch is returned* (the `except` and
empty-result branches all `return self._fallback_questions(...)`); otherwise
the parsed questions are returned. -/
def generate_questions (outcome : GenOutcome) (difficulty : String)
    (count : Nat) (asked_texts : List String) (u : Nat → String)
    (shuf : List QOption → List QOption) : List Question :=
  match outcome with
  | .noApiKey => _fallback_questions difficulty count u shuf
  | .callFailed => _fallback_questions difficulty count u shuf
  | .payload items =>
    if items.isEmpty then _fallback_questions difficulty count u shuf
    else
      let questions :=
        _parse_payload difficulty u shuf (items.take count) 0
          (asked_texts.map _norm_text) []
      if questions.isEmpty then _fallback_questions difficulty count u shuf
      else questions

/-- Modelled from the spec: `SessionStore.is_generation_in_progress` is
called from `main.py` but missing from `state.py`; per spec §3 it reads the
per-session boolean guard. -/
def is_generation_in_progress (s : SessionData) : Bool :=
  s.generation_in_progress

/-- Modelled from the spec: `SessionStore.set_generation_in_progress` is
called from `main.py` but missing from `state.py`; per spec §3 it writes the
per-session boolean guard. -/
def set_generation_in_progress (s : SessionData) (value : Bool) : SessionData :=
  { s with generation_in_progress := value }

/-- Modelled from the spec: `SessionStore.add_questions_to_buffer` is called
from `main.py` but missing from `state.py`; per spec §4.4 results are merged
through the dedup filter into the buffer, `replace` clearing the existing
buffer first and extend appending — i.e. it dispatches to
`set_question_buffer` / `extend_question_buffer`. -/
def add_questions_to_buffer (s : SessionData) (questions : List Question)
    (replace : Bool) : SessionData :=
  if replace then set_question_buffer s questions
  else extend_question_buffer s questions

/-- Modelled from the spec: `SessionStore.needs_more_questions` is called
from `main.py` but missing from `state.py`; per spec §4.4 the low-buffer
signal holds when the remaining buffer length is below the threshold and no
refill is already in flight. -/
def needs_more_questions (s : SessionData) (threshold : Nat) : Bool :=
  decide (s.questions.length < threshold) && !s.generation_in_progress

/-- `src/app/main.py` `generate_questions_background`, with the generator's
result abstracted as `generated` (the invocation happens only in the
non-skip branch; the returned `Bool` reports whether it happened). The skip
branch returns early from inside the `try`, so the `finally` clause *still
runs* and clears the guard. The merge is `add_questions_to_buffer(...,
replace=False)`. -/
def generate_questions_background (s : SessionData)
    (generated : List Question) : SessionData × Bool :=
  if is_generation_in_progress s then
    (set_generation_in_progress s false, false)
  else
    let s1 := set_generation_in_progress s true
    let s2 := add_questions_to_buffer s1 generated false
    (set_generation_in_progress s2 false, true)

/-- The state of `generate_questions_background` right after its
check-and-set of the guard, while the generator invocation is still in
flight (used to model a second refill racing with the first). -/
def background_generation_started (s : SessionData) : SessionData :=
  set_generation_in_progress s true

/-- `src/app/main.py` `get_next_question` (session existence already
checked): pop the buffer; on an empty buffer synchronously install the
fallback batch with replace semantics, pop again, and schedule a background
refill; raise `no_questions_available` (result `none`) when still empty;
otherwise possibly schedule a proactive refill when the buffer is low, and
consume the pending popup. The returned triple is (served question or
`none` for the 503, consumed popup, number of background refill tasks
scheduled). -/
def get_next_question (s0 : SessionData) (u : Nat → String)
    (shuf : List QOption → List QOption) :
    (Option Question × Option String × Nat) × SessionData :=
  let pop1 := pop_next_question s0
  match pop1.1 with
  | some q =>
    let s1 := pop1.2
    let sched := if needs_more_questions s1 3 then 1 else 0
    let pu := consume_pending_popup s1
    ((some q, pu.1, sched), pu.2)
  | none =>
    let s1 := pop1.2
    let fallback := _fallback_questions s1.difficulty settings.question_batch_size u shuf
    let s2 := add_questions_to_buffer s1 fallback true
    let pop2 := pop_next_question s2
    match pop2.1 with
    | none => ((none, none, 1), pop2.2)
    | some q =>
      let s3 := pop2.2
      let sched := 1 + (if needs_more_questions s3 3 then 1 else 0)
      let pu := consume_pending_popup s3
      ((some q, pu.1, sched), pu.2)

/-- Mutual exclusion (spec §3 invariant set): no question id is present in
both the buffer and the served-but-unanswered map. -/
def MutEx (s : SessionData) : Prop :=
  ∀ q ∈ s.questions, ∀ p ∈ s.served_unanswered, p.1 ≠ q.id

/-- The inductive session invariant from which mutual exclusion follows:
buffer ids are pairwise distinct, no buffered id has been asked, and every
served-unanswered key has been asked. The first two reflect spec §3's data
model ("identifier unique within a session's lifetime" — ids are minted by
`uuid.uuid4()`). -/
def StateInv (s : SessionData) : Prop :=
  (s.questions.map Question.id).Nodup ∧
  (∀ q ∈ s.questions, q.id ∉ s.asked_question_ids) ∧
  (∀ p ∈ s.served_unanswered, p.1 ∈ s.asked_question_ids)

instance (s : SessionData) : Decidable (MutEx s) := by
  unfold MutEx
  infer_instance

instance (s : SessionData) : Decidable (StateInv s) := by
  unfold StateInv
  infer_instance

/-- A deterministic stand-in for the uuid supply, used to instantiate
theorems at concrete inputs. -/
def sampleIds (n : Nat) : String :=
  "id-" ++ Nat.repr n

/-- The identity permutation, a concrete admissible value for the
`random.shuffle` parameter. -/
def sampleShuffle (l : List QOption) : List QOption :=
  l

/-- A concrete candidate question (fresh id and text) for counterexamples
and witnesses. -/
def sampleQuestion : Question :=
  { id := "i1"
    text := "T"
    options := [{ id := "a", text := "x" }, { id := "b", text := "y" }]
    correct_option_id := "a"
    difficulty := "medium" }

/-- A concrete model-payload item whose `correct_option_id` names no option
and which carries a single option, used to refute C9 on the parsing path. -/
def sampleBadItem : Item :=
  { id := some "q1"
    options := .dicts [(some "a", some "x")]
    correct_option_id := some "zzz"
    correct_index := none
    text := "T"
    difficulty := none }

/-! Helper lemmas about the dict/set/deque primitives. -/

theorem setInsert_mem {l : List String} {a x : String} :
    x ∈ setInsert l a ↔ x ∈ l ∨ x = a := by
  unfold setInsert
  split
  · constructor
    · exact fun hx => Or.inl hx
    · rintro (hx | rfl) <;> assumption
  · simp [List.mem_append]

theorem dictLookup_eq_none_iff {α : Type} {l : List (String × α)} {k : String} :
    dictLookup l k = none ↔ ∀ p ∈ l, p.1 ≠ k := by
  induction l with
  | nil => simp [dictLookup]
  | cons p rest ih =>
    unfold dictLookup
    by_cases h : p.1 = k <;> simp [h, ih]

theorem mem_dictInsert {α : Type} {l : List (String × α)} {k : String}
    {v : α} {p : String × α} (hp : p ∈ dictInsert l k v) :
    p.1 = k ∨ p ∈ l := by
  unfold dictInsert at hp
  split at hp
  · obtain ⟨q, hq, hpq⟩ := List.mem_map.mp hp
    by_cases h : q.1 = k
    · simp [h] at hpq
      left
      rw [← hpq]
    · simp [h] at hpq
      right
      rw [← hpq]
      exact hq
  · rcases List.mem_append.mp hp with h | h
    · exact Or.inr h
    · simp at h
      left
      rw [h]

theorem mem_dictRemove {α : Type} {l : List (String × α)} {k : String}
    {p : String × α} (hp : p ∈ dictRemove l k) : p ∈ l :=
  List.mem_of_mem_filter hp

theorem mem_filter_new {s : SessionData} {b : List Question} {q : Question} :
    q ∈ _filter_new s b ↔
      q ∈ b ∧ q.id ∉ s.asked_question_ids ∧
        _norm q.text ∉ s.asked_question_texts := by
  unfold _filter_new
  rw [List.mem_filter]
  simp

theorem filter_new_sublist (s : SessionData) (b : List Question) :
    (_filter_new s b).Sublist b :=
  List.filter_sublist b

/-- When every candidate's normalized text was already asked, the dedup
filter removes the whole batch. -/
theorem filter_new_eq_nil_of_texts_seen {s : SessionData} {b : List Question}
    (h : ∀ q ∈ b, _norm q.text ∈ s.asked_question_texts) :
    _filter_new s b = [] := by
  unfold _filter_new
  rw [List.filter_eq_nil_iff]
  intro q hq
  simp [h q hq]

/-- When no candidate's id or normalized text was asked before, the dedup
filter keeps the whole batch. -/
theorem filter_new_eq_self {s : SessionData} {b : List Question}
    (h : ∀ q ∈ b, q.id ∉ s.asked_question_ids ∧
      _norm q.text ∉ s.asked_question_texts) :
    _filter_new s b = b := by
  unfold _filter_new
  rw [List.filter_eq_self]
  intro q hq
  simp [h q hq]

theorem set_question_buffer_asked (s : SessionData) (b : List Question) :
    (set_question_buffer s b).asked_question_ids = s.asked_question_ids ∧
    (set_question_buffer s b).asked_question_texts = s.asked_question_texts ∧
    (set_question_buffer s b).served_unanswered = s.served_unanswered ∧
    (set_question_buffer s b).questions = _filter_new s b := by
  simp [set_question_buffer, _remember_generated]

theorem extend_question_buffer_asked (s : SessionData) (b : List Question) :
    (extend_question_buffer s b).asked_question_ids = s.asked_question_ids ∧
    (extend_question_buffer s b).asked_question_texts = s.asked_question_texts ∧
    (extend_question_buffer s b).served_unanswered = s.served_unanswered ∧
    (extend_question_buffer s b).questions = s.questions ++ _filter_new s b := by
  simp [extend_question_buffer, _remember_generated]

/-! ### C4: the difficulty-engine decision rule. -/

/-- The engine's thresholds are relative to the window's own length, so they
coincide with the claim's `W`-relative thresholds when the window is full
(the only case in which `main.py` invokes the engine). -/
theorem determine_next_difficulty_full_window (w : List Bool)
    (h : w.length = settings.answer_window) :
    determine_next_difficulty w = claim_difficulty_rule settings.answer_window w := by
  simp only [determine_next_difficulty, claim_difficulty_rule, h, settings]

/-- Witness for `determine_next_difficulty_full_window` at a concrete full
window. -/
theorem determine_next_difficulty_full_window_witness :
    [true, true, false, true, true].length = settings.answer_window ∧
    determine_next_difficulty [true, true, false, true, true] =
      claim_difficulty_rule settings.answer_window [true, true, false, true, true] :=
  ⟨by decide,
    determine_next_difficulty_full_window [true, true, false, true, true] (by decide)⟩

/-- Counterexample to C4 as stated: on the partial window `[false]`
(length 1, within 0..W for W = 5) the code answers `increase` (0 correct ≥
length − 1 = 0) while the claim's rule answers `decrease` (0 correct ≤ 1 and
0 < W − 1 = 4). -/
theorem determine_next_difficulty_partial_window_counterexample :
    determine_next_difficulty [false] = "increase" ∧
    claim_difficulty_rule settings.answer_window [false] = "decrease" ∧
    determine_next_difficulty [false] ≠
      claim_difficulty_rule settings.answer_window [false] := by
  refine ⟨by decide, by decide, by decide⟩

/-! ### C7: answering an unknown question id. -/

/-- A question id absent from `served_unanswered` evaluates to incorrect
(`false`, never signalling success), and recording that incorrect outcome
leaves both text histories untouched (`record_answer` is total — no
exception path exists for an unknown id). -/
theorem unknown_answer_is_incorrect (s : SessionData)
    (question_id selected : String)
    (h : dictLookup s.served_unanswered question_id = none) :
    evaluate_answer s question_id selected = false ∧
    (record_answer s question_id false).1.correct_texts = s.correct_texts ∧
    (record_answer s question_id false).1.wrong_texts = s.wrong_texts := by
  refine ⟨?_, ?_, ?_⟩ <;> simp [evaluate_answer, record_answer, h]

/-- Witness for `unknown_answer_is_incorrect` on a fresh session. -/
theorem unknown_answer_is_incorrect_witness :
    evaluate_answer init_session "q" "a" = false ∧
    (record_answer init_session "q" false).1.correct_texts =
      init_session.correct_texts ∧
    (record_answer init_session "q" false).1.wrong_texts =
      init_session.wrong_texts :=
  unknown_answer_is_incorrect init_session "q" "a" rfl

/-! ### C8: one-rung clamped difficulty movement. -/

theorem next_difficulty_mem (d dir : String)
    (h : d ∈ ["easy", "medium", "hard"]) :
    next_difficulty d dir ∈ ["easy", "medium", "hard"] := by
  simp only [List.mem_cons, List.not_mem_nil, or_false] at h
  by_cases h1 : dir = "increase"
  · subst h1
    rcases h with rfl | rfl | rfl <;> decide
  · by_cases h2 : dir = "decrease"
    · subst h2
      rcases h with rfl | rfl | rfl <;> decide
    · have hd : next_difficulty d dir = d := by
        simp [next_difficulty, h1, h2]
      rw [hd]
      simpa using h

theorem adjust_iterate_mem (dir : String) :
    ∀ (n : Nat) (s : SessionData), s.difficulty ∈ ["easy", "medium", "hard"] →
      ((fun t => adjust_difficulty t dir)^[n] s).difficulty ∈
        ["easy", "medium", "hard"]
  | 0, s, h => by simpa using h
  | n + 1, s, h => by
    rw [Function.iterate_succ_apply]
    exact adjust_iterate_mem dir n _
      (by simpa [adjust_difficulty] using next_difficulty_mem _ dir h)

/-- `adjust_difficulty` moves exactly one rung in the given direction,
clamped at the ends, always stays on the three-rung scale, unconditionally
clears the rolling window, and iterating either signal any number of times
keeps the difficulty on the scale (never past `hard` or `easy`). -/
theorem adjust_difficulty_one_rung_clamped (s : SessionData) (direction : String)
    (n : Nat) (h : s.difficulty ∈ ["easy", "medium", "hard"]) :
    (adjust_difficulty s direction).difficulty ∈ ["easy", "medium", "hard"]
    ∧ (adjust_difficulty s direction).recent_results = []
    ∧ (s.difficulty = "hard" → (adjust_difficulty s "increase").difficulty = "hard")
    ∧ (s.difficulty = "easy" → (adjust_difficulty s "decrease").difficulty = "easy")
    ∧ (s.difficulty = "easy" → (adjust_difficulty s "increase").difficulty = "medium")
    ∧ (s.difficulty = "medium" → (adjust_difficulty s "increase").difficulty = "hard")
    ∧ (s.difficulty = "medium" → (adjust_difficulty s "decrease").difficulty = "easy")
    ∧ (s.difficulty = "hard" → (adjust_difficulty s "decrease").difficulty = "medium")
    ∧ (direction ≠ "increase" → direction ≠ "decrease" →
        (adjust_difficulty s direction).difficulty = s.difficulty)
    ∧ ((fun t => adjust_difficulty t "increase")^[n] s).difficulty ∈
        ["easy", "medium", "hard"]
    ∧ ((fun t => adjust_difficulty t "decrease")^[n] s).difficulty ∈
        ["easy", "medium", "hard"] := by
  refine ⟨by simpa [adjust_difficulty] using next_difficulty_mem _ direction h,
    by simp [adjust_difficulty], ?_, ?_, ?_, ?_, ?_, ?_, ?_,
    adjust_iterate_mem "increase" n s h, adjust_iterate_mem "decrease" n s h⟩
  · intro hd
    simp [adjust_difficulty, hd]
    decide
  · intro hd
    simp [adjust_difficulty, hd]
    decide
  · intro hd
    simp [adjust_difficulty, hd]
    decide
  · intro hd
    simp [adjust_difficulty, hd]
    decide
  · intro hd
    simp [adjust_difficulty, hd]
    decide
  · intro hd
    simp [adjust_difficulty, hd]
    decide
  · intro h1 h2
    simp [adjust_difficulty, next_difficulty, h1, h2]

/-- Witness for `adjust_difficulty_one_rung_clamped` on a fresh session. -/
theorem adjust_difficulty_one_rung_clamped_witness :
    (adjust_difficulty init_session "increase").difficulty ∈
        ["easy", "medium", "hard"]
    ∧ (adjust_difficulty init_session "increase").recent_results = []
    ∧ (init_session.difficulty = "hard" →
        (adjust_difficulty init_session "increase").difficulty = "hard")
    ∧ (init_session.difficulty = "easy" →
        (adjust_difficulty init_session "decrease").difficulty = "easy")
    ∧ (init_session.difficulty = "easy" →
        (adjust_difficulty init_session "increase").difficulty = "medium")
    ∧ (init_session.difficulty = "medium" →
        (adjust_difficulty init_session "increase").difficulty = "hard")
    ∧ (init_session.difficulty = "medium" →
        (adjust_difficulty init_session "decrease").difficulty = "easy")
    ∧ (init_session.difficulty = "hard" →
        (adjust_difficulty init_session "decrease").difficulty = "medium")
    ∧ ("increase" ≠ "increase" → "increase" ≠ "decrease" →
        (adjust_difficulty init_session "increase").difficulty =
          init_session.difficulty)
    ∧ ((fun t => adjust_difficulty t "increase")^[3] init_session).difficulty ∈
        ["easy", "medium", "hard"]
    ∧ ((fun t => adjust_difficulty t "decrease")^[3] init_session).difficulty ∈
        ["easy", "medium", "hard"] :=
  adjust_difficulty_one_rung_clamped init_session "increase" 3 (by decide)

/-! ### C5: what `filter_new` does and does not record. -/

/-- Amended C5: for a batch with fresh ids and fresh normalized texts,
`_filter_new` returns the full batch; but filtering (and installing via
`set_question_buffer`) records nothing into the asked/seen sets — those are
updated only when a question is popped — so an identical batch passed
through `_filter_new` a second time returns the full batch again, not the
empty sequence. The filter maps the batch to `[]` exactly once all its
normalized texts have entered `asked_question_texts` (e.g. by being
served). -/
theorem filter_new_second_pass_full (s : SessionData) (b : List Question)
    (h : ∀ q ∈ b, q.id ∉ s.asked_question_ids ∧
      _norm q.text ∉ s.asked_question_texts) :
    _filter_new s b = b
    ∧ (set_question_buffer s b).asked_question_ids = s.asked_question_ids
    ∧ (set_question_buffer s b).asked_question_texts = s.asked_question_texts
    ∧ _filter_new (set_question_buffer s b) b = b
    ∧ (∀ s' : SessionData,
        (∀ q ∈ b, _norm q.text ∈ s'.asked_question_texts) →
          _filter_new s' b = []) := by
  have h1 := filter_new_eq_self h
  obtain ⟨ha, hb', _, _⟩ := set_question_buffer_asked s b
  have h2 : _filter_new (set_question_buffer s b) b = _filter_new s b := by
    unfold _filter_new
    rw [ha, hb']
  exact ⟨h1, ha, hb', h2.trans h1,
    fun s' hs' => filter_new_eq_nil_of_texts_seen hs'⟩

/-- Witness for `filter_new_second_pass_full` on a fresh session and a
one-question batch. -/
theorem filter_new_second_pass_full_witness :
    _filter_new init_session [sampleQuestion] = [sampleQuestion]
    ∧ (set_question_buffer init_session [sampleQuestion]).asked_question_ids =
        init_session.asked_question_ids
    ∧ (set_question_buffer init_session [sampleQuestion]).asked_question_texts =
        init_session.asked_question_texts
    ∧ _filter_new (set_question_buffer init_session [sampleQuestion])
        [sampleQuestion] = [sampleQuestion]
    ∧ (∀ s' : SessionData,
        (∀ q ∈ [sampleQuestion], _norm q.text ∈ s'.asked_question_texts) →
          _filter_new s' [sampleQuestion] = []) :=
  filter_new_second_pass_full init_session [sampleQuestion] (by decide)

/-- Counterexample to C5 as stated: on a fresh session, installing the
batch `[sampleQuestion]` through `set_question_buffer` (which applies
`_filter_new` and accepts everything) and then passing the identical batch
through `_filter_new` again yields the full batch, not the empty
sequence. -/
theorem filter_new_not_idempotent_counterexample :
    _filter_new (set_question_buffer init_session [sampleQuestion])
        [sampleQuestion] = [sampleQuestion]
    ∧ ([sampleQuestion] : List Question) ≠ [] := by
  refine ⟨by decide, by decide⟩

/-! ### C10: the fallback source serves one fixed text. -/

/-- Every fallback question carries the fixed text. -/
theorem fallback_text_fixed (difficulty : String) (u : Nat → String)
    (shuf : List QOption → List QOption) :
    ∀ (n k : Nat), ∀ q ∈ _fallback_questions_aux difficulty u shuf n k,
      q.text = "Who is the boy who lived?" ∧ q.difficulty = difficulty := by
  intro n
  induction n with
  | zero => intro k q hq; simp [_fallback_questions_aux] at hq
  | succ m ih =>
    intro k q hq
    simp only [_fallback_questions_aux, List.mem_cons] at hq
    rcases hq with rfl | hq
    · exact ⟨rfl, rfl⟩
    · exact ih (k + 5) q hq

/-- Amended C10: every question returned by the fallback source has the
identical text "Who is the boy who lived?", and once that normalized text
has entered a session's asked set (i.e. once any fallback question has been
served), `_filter_new` maps every subsequent fallback batch for that
session to the empty list. (The batch *first installed* is not deduplicated
within itself, so more than one fallback question can still be served from
it — see the counterexample.) -/
theorem fallback_filtered_after_serve (s : SessionData) (difficulty : String)
    (count : Nat) (u : Nat → String) (shuf : List QOption → List QOption)
    (h : "who is the boy who lived?" ∈ s.asked_question_texts) :
    (∀ q ∈ _fallback_questions difficulty count u shuf,
      q.text = "Who is the boy who lived?")
    ∧ _filter_new s (_fallback_questions difficulty count u shuf) = [] := by
  have htext : ∀ q ∈ _fallback_questions difficulty count u shuf,
      q.text = "Who is the boy who lived?" :=
    fun q hq => (fallback_text_fixed difficulty u shuf count 0 q hq).1
  refine ⟨htext, filter_new_eq_nil_of_texts_seen ?_⟩
  intro q hq
  rw [htext q hq]
  have hn : _norm "Who is the boy who lived?" = "who is the boy who lived?" := by
    decide
  rw [hn]
  exact h

/-- Witness for `fallback_filtered_after_serve`: after serving one fallback
question, the next fallback batch filters to empty. -/
theorem fallback_filtered_after_serve_witness :
    (∀ q ∈ _fallback_questions "medium" 2 sampleIds sampleShuffle,
      q.text = "Who is the boy who lived?")
    ∧ _filter_new
        (pop_next_question (set_question_buffer init_session
          (_fallback_questions "medium" 2 sampleIds sampleShuffle))).2
        (_fallback_questions "medium" 2 sampleIds sampleShuffle) = [] :=
  fallback_filtered_after_serve
    (pop_next_question (set_question_buffer init_session
      (_fallback_questions "medium" 2 sampleIds sampleShuffle))).2
    "medium" 2 sampleIds sampleShuffle (by decide)

/-- Counterexample to C10's conclusion that the fallback path serves at most
one question per session: `_filter_new` does not deduplicate within a batch,
so the first installed fallback batch holds several copies of the question,
and two consecutive pops both serve fallback questions in the same
session. -/
theorem fallback_served_twice_counterexample :
    ((pop_next_question (set_question_buffer init_session
        (_fallback_questions "medium" 2 sampleIds sampleShuffle))).1.map
          Question.text = some "Who is the boy who lived?")
    ∧ ((pop_next_question
        (pop_next_question (set_question_buffer init_session
          (_fallback_questions "medium" 2 sampleIds sampleShuffle))).2).1.map
            Question.text = some "Who is the boy who lived?") := by
  refine ⟨by decide, by decide⟩

/-! ### C6: mutual exclusion of buffer and served_unanswered. -/

theorem state_inv_mutex {s : SessionData} (h : StateInv s) : MutEx s := by
  obtain ⟨-, hbuf, hserved⟩ := h
  intro q hq p hp heq
  exact hbuf q hq (heq ▸ hserved p hp)

theorem state_inv_init : StateInv init_session := by
  refine ⟨List.nodup_nil, ?_, ?_⟩ <;> simp [init_session]

theorem state_inv_pop {s : SessionData} (h : StateInv s) :
    StateInv (pop_next_question s).2 := by
  obtain ⟨hnd, hbuf, hserved⟩ := h
  rcases hq : s.questions with - | ⟨q, rest⟩
  · simpa [pop_next_question, hq] using ⟨hq ▸ hnd, hq ▸ hbuf, hserved⟩
  · have hnd' : (q.id :: rest.map Question.id).Nodup := by
      rw [hq] at hnd
      simpa using hnd
    refine ⟨?_, ?_, ?_⟩ <;> simp only [pop_next_question, hq]
    · exact hnd'.of_cons
    · intro q' hq'
      rw [setInsert_mem]
      push_neg
      refine ⟨hbuf q' (by rw [hq]; exact List.mem_cons_of_mem q hq'), ?_⟩
      intro heq
      exact (List.nodup_cons.mp hnd').1 (heq ▸ List.mem_map_of_mem Question.id hq')
    · intro p hp
      rw [setInsert_mem]
      rcases mem_dictInsert hp with h1 | h1
      · exact Or.inr h1
      · exact Or.inl (hserved p h1)

theorem record_answer_fields (s : SessionData) (qid : String) (c : Bool) :
    (record_answer s qid c).1.questions = s.questions ∧
    (record_answer s qid c).1.asked_question_ids = s.asked_question_ids ∧
    (∀ p ∈ (record_answer s qid c).1.served_unanswered,
      p ∈ s.served_unanswered) := by
  unfold record_answer
  rcases hl : dictLookup s.served_unanswered qid with - | q
  · simp [hl]
  · rcases c with - | - <;>
      simpa [hl] using fun (a : String) (b : Question) hp => mem_dictRemove hp

theorem state_inv_record {s : SessionData} (qid : String) (c : Bool)
    (h : StateInv s) : StateInv (record_answer s qid c).1 := by
  obtain ⟨hnd, hbuf, hserved⟩ := h
  obtain ⟨h1, h2, h3⟩ := record_answer_fields s qid c
  refine ⟨by rw [h1]; exact hnd, ?_, ?_⟩
  · intro q hq
    rw [h2]
    exact hbuf q (by rw [← h1]; exact hq)
  · intro p hp
    rw [h2]
    exact hserved p (h3 p hp)

theorem state_inv_set {s : SessionData} {b : List Question} (hs : StateInv s)
    (hb : (b.map Question.id).Nodup) : StateInv (set_question_buffer s b) := by
  obtain ⟨hnd, hbuf, hserved⟩ := hs
  obtain ⟨ha, ht, hsrv, hq⟩ := set_question_buffer_asked s b
  refine ⟨?_, ?_, ?_⟩
  · rw [hq]
    exact ((filter_new_sublist s b).map Question.id).nodup hb
  · intro q hqq
    rw [hq] at hqq
    rw [ha]
    exact (mem_filter_new.mp hqq).2.1
  · intro p hp
    rw [hsrv] at hp
    rw [ha]
    exact hserved p hp

theorem state_inv_extend {s : SessionData} {b : List Question}
    (hs : StateInv s) (hb : (b.map Question.id).Nodup)
    (hfresh : ∀ q ∈ b, q.id ∉ s.questions.map Question.id) :
    StateInv (extend_question_buffer s b) := by
  obtain ⟨hnd, hbuf, hserved⟩ := hs
  obtain ⟨ha, ht, hsrv, hq⟩ := extend_question_buffer_asked s b
  refine ⟨?_, ?_, ?_⟩
  · rw [hq, List.map_append]
    refine List.Nodup.append hnd
      (((filter_new_sublist s b).map Question.id).nodup hb) ?_
    intro a haold hanew
    obtain ⟨q1, hq1, rfl⟩ := List.mem_map.mp hanew
    exact hfresh q1 (List.Sublist.mem hq1 (filter_new_sublist s b)) haold
  · intro q hqq
    rw [hq] at hqq
    rw [ha]
    rcases List.mem_append.mp hqq with h1 | h1
    · exact hbuf q h1
    · exact (mem_filter_new.mp h1).2.1
  · intro p hp
    rw [hsrv] at hp
    rw [ha]
    exact hserved p hp

/-- C6: under the session invariant (buffer ids pairwise distinct and never
previously asked — spec §3's "identifier unique within a session's
lifetime", guaranteed by uuid minting — and served keys already asked), no
question id is ever in both the buffer and `served_unanswered`, and every
session operation (pop, record, set, extend) preserves the invariant and
hence mutual exclusion; the fresh session satisfies it. -/
theorem mutual_exclusion_preserved (s : SessionData) (b : List Question)
    (qid : String) (c : Bool) (hs : StateInv s)
    (hb : (b.map Question.id).Nodup)
    (hfresh : ∀ q ∈ b, q.id ∉ s.questions.map Question.id) :
    MutEx s
    ∧ StateInv init_session
    ∧ (StateInv (pop_next_question s).2 ∧ MutEx (pop_next_question s).2)
    ∧ (StateInv (record_answer s qid c).1 ∧ MutEx (record_answer s qid c).1)
    ∧ (StateInv (set_question_buffer s b) ∧ MutEx (set_question_buffer s b))
    ∧ (StateInv (extend_question_buffer s b) ∧
        MutEx (extend_question_buffer s b)) :=
  ⟨state_inv_mutex hs, state_inv_init,
    ⟨state_inv_pop hs, state_inv_mutex (state_inv_pop hs)⟩,
    ⟨state_inv_record qid c hs, state_inv_mutex (state_inv_record qid c hs)⟩,
    ⟨state_inv_set hs hb, state_inv_mutex (state_inv_set hs hb)⟩,
    ⟨state_inv_extend hs hb hfresh,
      state_inv_mutex (state_inv_extend hs hb hfresh)⟩⟩

/-- Witness for `mutual_exclusion_preserved` at a concrete session (one
question installed then popped) and a concrete fresh batch. -/
theorem mutual_exclusion_preserved_witness :
    MutEx (pop_next_question (set_question_buffer init_session
      [sampleQuestion])).2
    ∧ StateInv init_session
    ∧ (StateInv (pop_next_question (pop_next_question (set_question_buffer
          init_session [sampleQuestion])).2).2 ∧
        MutEx (pop_next_question (pop_next_question (set_question_buffer
          init_session [sampleQuestion])).2).2)
    ∧ (StateInv (record_answer (pop_next_question (set_question_buffer
          init_session [sampleQuestion])).2 "i1" true).1 ∧
        MutEx (record_answer (pop_next_question (set_question_buffer
          init_session [sampleQuestion])).2 "i1" true).1)
    ∧ (StateInv (set_question_buffer (pop_next_question (set_question_buffer
          init_session [sampleQuestion])).2
          [{ id := "i2", text := "U", options := [], correct_option_id := "",
             difficulty := "easy" }]) ∧
        MutEx (set_question_buffer (pop_next_question (set_question_buffer
          init_session [sampleQuestion])).2
          [{ id := "i2", text := "U", options := [], correct_option_id := "",
             difficulty := "easy" }]))
    ∧ (StateInv (extend_question_buffer (pop_next_question (set_question_buffer
          init_session [sampleQuestion])).2
          [{ id := "i2", text := "U", options := [], correct_option_id := "",
             difficulty := "easy" }]) ∧
        MutEx (extend_question_buffer (pop_next_question (set_question_buffer
          init_session [sampleQuestion])).2
          [{ id := "i2", text := "U", options := [], correct_option_id := "",
             difficulty := "easy" }])) :=
  mutual_exclusion_preserved
    (pop_next_question (set_question_buffer init_session [sampleQuestion])).2
    [{ id := "i2", text := "U", options := [], correct_option_id := "",
       difficulty := "easy" }]
    "i1" true (by decide) (by decide) (by decide)

/-! ### C1: the background-refill guard. -/

/-- Evaluation exhibiting the C1 failure: start from a session whose guard
was set by an in-flight refill A (`background_generation_started`). A
second racing refill B skips (no generator invocation, no buffer mutation)
— but B's `finally` clause *clears the guard A set*, so B is not a no-op;
a third refill C started after B but before A completes then finds the
guard clear and invokes the generator while A is still in flight, defeating
"at most one background refill generation in flight at any time". -/
theorem background_skip_clears_guard :
    (generate_questions_background
        (background_generation_started init_session) []).2 = false
    ∧ (generate_questions_background
        (background_generation_started init_session) []).1.questions =
      (background_generation_started init_session).questions
    ∧ (background_generation_started init_session).generation_in_progress = true
    ∧ (generate_questions_background
        (background_generation_started init_session) []).1.generation_in_progress
        = false
    ∧ (generate_questions_background
        (generate_questions_background
          (background_generation_started init_session) []).1 []).2 = true := by
  refine ⟨by decide, by decide, by decide, by decide, by decide⟩

/-! ### C2: serving from an empty buffer. -/

/-- C2: on an existing session whose buffer is empty, `get_next_question`
synchronously obtains the fallback batch, installs it as the buffer through
the dedup filter with replace semantics, pops and returns the head of the
filtered batch, and schedules at least one asynchronous background refill;
it answers `none` (HTTP 503 `no_questions_available`) if and only if the
fallback batch filters to empty. -/
theorem next_question_empty_buffer (s : SessionData) (u : Nat → String)
    (shuf : List QOption → List QOption) (hempty : s.questions = []) :
    ((get_next_question s u shuf).1.1 = none ↔
      _filter_new s (_fallback_questions s.difficulty
        settings.question_batch_size u shuf) = [])
    ∧ 1 ≤ (get_next_question s u shuf).1.2.2
    ∧ (∀ q rest,
        _filter_new s (_fallback_questions s.difficulty
          settings.question_batch_size u shuf) = q :: rest →
        (get_next_question s u shuf).1.1 = some q ∧
        (get_next_question s u shuf).2.questions = rest) := by
  have hpop : pop_next_question s = (none, s) := by
    unfold pop_next_question
    rw [hempty]
  obtain ⟨-, -, -, hq2⟩ := set_question_buffer_asked s
    (_fallback_questions s.difficulty settings.question_batch_size u shuf)
  rcases hf : _filter_new s (_fallback_questions s.difficulty
      settings.question_batch_size u shuf) with - | ⟨q0, rest0⟩
  · have hq2' : (set_question_buffer s (_fallback_questions s.difficulty
        settings.question_batch_size u shuf)).questions = [] := hq2.trans hf
    have hpop2 : pop_next_question (set_question_buffer s
        (_fallback_questions s.difficulty settings.question_batch_size u shuf)) =
        (none, set_question_buffer s (_fallback_questions s.difficulty
          settings.question_batch_size u shuf)) := by
      unfold pop_next_question
      rw [hq2']
    refine ⟨?_, ?_, ?_⟩ <;>
      simp [get_next_question, hpop, add_questions_to_buffer, hpop2]
  · have hq2' : (set_question_buffer s (_fallback_questions s.difficulty
        settings.question_batch_size u shuf)).questions = q0 :: rest0 :=
      hq2.trans hf
    have hpop2 : (pop_next_question (set_question_buffer s
        (_fallback_questions s.difficulty settings.question_batch_size u shuf))).1
          = some q0 ∧
        (pop_next_question (set_question_buffer s
          (_fallback_questions s.difficulty settings.question_batch_size
            u shuf))).2.questions = rest0 := by
      unfold pop_next_question
      rw [hq2']
      exact ⟨rfl, rfl⟩
    rcases hsplit : pop_next_question (set_question_buffer s
        (_fallback_questions s.difficulty settings.question_batch_size u shuf))
        with ⟨qq, s3⟩
    rw [hsplit] at hpop2
    obtain ⟨hqq, hs3⟩ := hpop2
    refine ⟨?_, ?_, ?_⟩ <;>
      simp only [get_next_question, hpop, add_questions_to_buffer, if_pos,
        hsplit, hqq, consume_pending_popup]
    · simp
    · simp
    · intro q rest hqr
      obtain ⟨rfl, rfl⟩ : q0 = q ∧ rest0 = rest := by
        simpa using hqr
      exact ⟨rfl, hs3⟩

/-- Witness for `next_question_empty_buffer` on a fresh (empty-buffer)
session with a concrete uuid supply and the identity shuffle. -/
theorem next_question_empty_buffer_witness :
    ((get_next_question init_session sampleIds sampleShuffle).1.1 = none ↔
      _filter_new init_session (_fallback_questions init_session.difficulty
        settings.question_batch_size sampleIds sampleShuffle) = [])
    ∧ 1 ≤ (get_next_question init_session sampleIds sampleShuffle).1.2.2
    ∧ (∀ q rest,
        _filter_new init_session (_fallback_questions init_session.difficulty
          settings.question_batch_size sampleIds sampleShuffle) = q :: rest →
        (get_next_question init_session sampleIds sampleShuffle).1.1 = some q ∧
        (get_next_question init_session sampleIds sampleShuffle).2.questions =
          rest) :=
  next_question_empty_buffer init_session sampleIds sampleShuffle rfl

/-! ### C3: generator failure during a scheduled refill. -/

/-- Amended C3: when the external generator fails (exception, no API key, or
an empty/unusable payload), `generate_questions` does not raise — it
*returns the fallback batch* — so the scheduled refill still invokes the
generator path, merges that fallback batch through the dedup filter into
the buffer (extend semantics), and clears the guard; no failure surfaces.
The buffer is therefore mutated whenever the fallback batch survives the
filter, and is unchanged only when the filter removes all of it. -/
theorem generator_failure_merges_fallback (s : SessionData) (d : String)
    (asked : List String) (u : Nat → String)
    (shuf : List QOption → List QOption) (outcome : GenOutcome)
    (hfail : outcome = GenOutcome.callFailed ∨ outcome = GenOutcome.noApiKey ∨
      outcome = GenOutcome.payload [])
    (hguard : s.generation_in_progress = false) :
    generate_questions outcome d settings.question_batch_size asked u shuf =
      _fallback_questions d settings.question_batch_size u shuf
    ∧ (generate_questions_background s
        (generate_questions outcome d settings.question_batch_size asked
          u shuf)).2 = true
    ∧ (generate_questions_background s
        (generate_questions outcome d settings.question_batch_size asked
          u shuf)).1.generation_in_progress = false
    ∧ (generate_questions_background s
        (generate_questions outcome d settings.question_batch_size asked
          u shuf)).1.questions =
      s.questions ++ _filter_new s
        (_fallback_questions d settings.question_batch_size u shuf) := by
  have hfb : generate_questions outcome d settings.question_batch_size asked
      u shuf = _fallback_questions d settings.question_batch_size u shuf := by
    rcases hfail with rfl | rfl | rfl <;> rfl
  have hg : generate_questions_background s
      (_fallback_questions d settings.question_batch_size u shuf) =
      (set_generation_in_progress (extend_question_buffer
        (set_generation_in_progress s true)
        (_fallback_questions d settings.question_batch_size u shuf)) false,
        true) := by
    unfold generate_questions_background is_generation_in_progress
    rw [hguard]
    simp [add_questions_to_buffer]
  obtain ⟨-, -, -, hq⟩ := extend_question_buffer_asked
    (set_generation_in_progress s true)
    (_fallback_questions d settings.question_batch_size u shuf)
  rw [hfb, hg]
  exact ⟨rfl, rfl, rfl, hq⟩

/-- Witness for `generator_failure_merges_fallback` on a fresh session with
a failed model call. -/
theorem generator_failure_merges_fallback_witness :
    generate_questions GenOutcome.callFailed "medium"
        settings.question_batch_size [] sampleIds sampleShuffle =
      _fallback_questions "medium" settings.question_batch_size sampleIds
        sampleShuffle
    ∧ (generate_questions_background init_session
        (generate_questions GenOutcome.callFailed "medium"
          settings.question_batch_size [] sampleIds sampleShuffle)).2 = true
    ∧ (generate_questions_background init_session
        (generate_questions GenOutcome.callFailed "medium"
          settings.question_batch_size [] sampleIds
            sampleShuffle)).1.generation_in_progress = false
    ∧ (generate_questions_background init_session
        (generate_questions GenOutcome.callFailed "medium"
          settings.question_batch_size [] sampleIds
            sampleShuffle)).1.questions =
      init_session.questions ++ _filter_new init_session
        (_fallback_questions "medium" settings.question_batch_size sampleIds
          sampleShuffle) :=
  generator_failure_merges_fallback init_session "medium" [] sampleIds
    sampleShuffle GenOutcome.callFailed (Or.inl rfl) rfl

/-- Counterexample to C3 as stated: on a fresh session, a scheduled refill
whose generator call fails leaves the buffer *changed* — the fallback batch
(10 questions) is merged in — not "completely unchanged". -/
theorem generator_failure_mutates_buffer_counterexample :
    init_session.questions = []
    ∧ (generate_questions_background init_session
        (generate_questions GenOutcome.callFailed "medium"
          settings.question_batch_size [] sampleIds
            sampleShuffle)).1.questions ≠ [] := by
  refine ⟨rfl, by decide⟩

/-! ### C9: shape of generated questions. -/

theorem shuffle_options_fst (options : List QOption) (cid : String)
    (shuffled : List QOption) :
    (_shuffle_options options cid shuffled).1 = shuffled := by
  unfold _shuffle_options
  split
  · split <;> rfl
  · rfl

/-- When the incoming correct id names one of the options and the shuffled
list is a permutation of the options, the post-shuffle correct id names one
of the shuffled options. -/
theorem shuffle_options_correct_mem (options : List QOption) (cid : String)
    (shuffled : List QOption) (hperm : shuffled.Perm options)
    (hmem : ∃ o ∈ options, o.id = cid) :
    (_shuffle_options options cid shuffled).2 ∈
      (_shuffle_options options cid shuffled).1.map QOption.id := by
  unfold _shuffle_options
  split
  · rename_i co hfind
    split
    · rename_i r hfind2
      show r.id ∈ List.map QOption.id shuffled
      exact List.mem_map_of_mem QOption.id (List.mem_of_find?_eq_some hfind2)
    · rename_i hfind2
      exfalso
      have hco : co ∈ options := List.mem_of_find?_eq_some hfind
      have hcos : co ∈ shuffled := hperm.mem_iff.mpr hco
      have hno := List.find?_eq_none.mp hfind2 co hcos
      simp at hno
  · rename_i hfind
    exfalso
    obtain ⟨o, ho, hid⟩ := hmem
    have hno := List.find?_eq_none.mp hfind o ho
    simp [hid] at hno

/-- Every canned fallback question has four options, and its correct option
id names one of them (for any shuffle that permutes the options). -/
theorem fallback_question_shape (difficulty : String) (u : Nat → String)
    (shuf : List QOption → List QOption) (hshuf : ∀ l, (shuf l).Perm l) :
    ∀ (n k : Nat), ∀ q ∈ _fallback_questions_aux difficulty u shuf n k,
      2 ≤ q.options.length ∧
        q.correct_option_id ∈ q.options.map QOption.id := by
  intro n
  induction n with
  | zero => intro k q hq; simp [_fallback_questions_aux] at hq
  | succ m ih =>
    intro k q hq
    simp only [_fallback_questions_aux, List.mem_cons] at hq
    rcases hq with rfl | hq
    · constructor
      · rw [shuffle_options_fst, (hshuf _).length_eq]
        simp
      · exact shuffle_options_correct_mem _ _ _ (hshuf _)
          ⟨⟨u (k + 1), "Harry"⟩, List.mem_cons_self _ _, rfl⟩
    · exact ih (k + 5) q hq

/-- Every question emitted by the payload-parsing loop has at least one
option (items with no parsed options are skipped). -/
theorem parse_payload_options_nonempty (difficulty : String) (u : Nat → String)
    (shuf : List QOption → List QOption) (hshuf : ∀ l, (shuf l).Perm l) :
    ∀ (items : List PayloadItem) (k : Nat) (askedN seen : List String),
      ∀ q ∈ _parse_payload difficulty u shuf items k askedN seen,
        q.options ≠ [] := by
  intro items
  induction items with
  | nil =>
    intro k askedN seen q hq
    simp [_parse_payload] at hq
  | cons it rest ih =>
    intro k askedN seen q hq
    cases it with
    | nondict =>
      exact ih _ _ _ q (by simpa [_parse_payload] using hq)
    | dict item =>
      simp only [_parse_payload] at hq
      split at hq
      · exact ih _ _ _ q hq
      · split at hq
        · exact ih _ _ _ q hq
        · split at hq
          · exact ih _ _ _ q hq
          · rename_i hx o os heq hn1 hn2
            rcases List.mem_cons.mp hq with rfl | hq'
            · show (_shuffle_options _ _ (shuf _)).1 ≠ []
              rw [shuffle_options_fst]
              intro hnil
              have hlen := (hshuf (o :: os)).length_eq
              rw [hnil] at hlen
              simp at hlen
            · exact ih _ _ _ q hq'

/-- Amended C9: every fallback question has 2+ options (exactly four) with
`correct_option_id` referencing one of its own options; every question from
the payload-parsing path has at least one option (but not necessarily two);
and the parsing path's correct id references one of the question's own
options whenever the pre-shuffle correct id matched a parsed option — a
payload-supplied `correct_option_id` matching no option is passed through
unvalidated (see the counterexample). -/
theorem generated_question_shape (d : String) (count : Nat) (u : Nat → String)
    (shuf : List QOption → List QOption) (hshuf : ∀ l, (shuf l).Perm l)
    (items : List PayloadItem) (k : Nat) (askedN seen : List String)
    (opts : List QOption) (cid : String) (shuffled : List QOption)
    (hperm : shuffled.Perm opts) (hmem : ∃ o ∈ opts, o.id = cid) :
    (∀ q ∈ _fallback_questions d count u shuf,
      2 ≤ q.options.length ∧ q.correct_option_id ∈ q.options.map QOption.id)
    ∧ (∀ q ∈ _parse_payload d u shuf items k askedN seen, q.options ≠ [])
    ∧ (_shuffle_options opts cid shuffled).2 ∈
        (_shuffle_options opts cid shuffled).1.map QOption.id :=
  ⟨fun q hq => fallback_question_shape d u shuf hshuf count 0 q hq,
    fun q hq => parse_payload_options_nonempty d u shuf hshuf items k askedN
      seen q hq,
    shuffle_options_correct_mem opts cid shuffled hperm hmem⟩

/-- Witness for `generated_question_shape` at concrete inputs. -/
theorem generated_question_shape_witness :
    (∀ q ∈ _fallback_questions "medium" 2 sampleIds sampleShuffle,
      2 ≤ q.options.length ∧ q.correct_option_id ∈ q.options.map QOption.id)
    ∧ (∀ q ∈ _parse_payload "medium" sampleIds sampleShuffle
        [PayloadItem.dict sampleBadItem] 0 [] [], q.options ≠ [])
    ∧ (_shuffle_options [⟨"a", "x"⟩] "a" [⟨"a", "x"⟩]).2 ∈
        (_shuffle_options [⟨"a", "x"⟩] "a" [⟨"a", "x"⟩]).1.map QOption.id :=
  generated_question_shape "medium" 2 sampleIds sampleShuffle
    (fun l => List.Perm.refl l) [PayloadItem.dict sampleBadItem] 0 [] []
    [⟨"a", "x"⟩] "a" [⟨"a", "x"⟩] (List.Perm.refl _)
    ⟨⟨"a", "x"⟩, by decide⟩

/-- Counterexample to C9 as stated: a payload item carrying a single option
and a `correct_option_id` matching no option yields a `Question` with fewer
than 2 options whose correct id references none of its own options. -/
theorem generated_question_invalid_counterexample :
    ∃ q ∈ generate_questions
        (GenOutcome.payload [PayloadItem.dict sampleBadItem]) "medium"
        settings.question_batch_size [] sampleIds sampleShuffle,
      q.options.length < 2 ∧
        q.correct_option_id ∉ q.options.map QOption.id := by
  decide
